import Mathlib

/-!
Shallow embedding of `src/main.py` (the aiLightBlocker Connector, a UI tool that
wires a "light blocker" object into the `aiFilters` multi attribute of light
shapes through the host scene-graph API).

The host state that the script reads and mutates is modelled by `Scene`
(existing objects, the current selection, the transform-to-shapes relation, the
per-shape occupied entries of the `aiFilters` array, and the set of destination
plugs on which the host refuses a connection).  The two UI widgets the script
owns are modelled by `UIState`.  Each handler of the script is translated into a
function from this state to a new state paired with the list of warnings it
emitted (`cmds.warning` calls).  Host API calls that can raise
(`cmds.connectAttr`, `cmds.disconnectAttr`) are modelled as `Option`-returning
functions on `Scene`.
-/

namespace LightBlocker

/-- Char-list test that the first list is an initial segment of the second
(used to build the Python substring test `sub in s`). -/
def strStarts : List Char → List Char → Bool
  | [], _ => true
  | _ :: _, [] => false
  | a :: as, b :: bs => a == b && strStarts as bs

/-- Char-list version of the Python substring test `sub in s`. -/
def strHas (sub : List Char) : List Char → Bool
  | [] => strStarts sub []
  | c :: t => strStarts sub (c :: t) || strHas sub t

/-- Python substring membership `sub in s` on strings. -/
def strIn (sub s : String) : Bool := strHas sub.toList s.toList

/-- Host scene state visible to the script. `filters` maps a shape name to the
occupied entries of its `aiFilters` multi attribute, each entry being an
occupied index together with the source plug connected there.  `locked` is the
set of destination plugs on which `cmds.connectAttr` raises (locked attribute
and similar host-level failures). -/
structure Scene where
  objects : List String
  selection : List String
  shapes : List (String × List String)
  filters : List (String × List (Nat × String))
  locked : List String
  deriving DecidableEq

/-- The two widgets of the tool window: the blocker text field, the light list
and its current selection (`cmds.textScrollList q si`). -/
structure UIState where
  blockerField : String
  lightList : List String
  listSelection : List String
  deriving DecidableEq

/-- `cmds.listRelatives(t, s=True, f=True) or []`. -/
def Scene.shapesOf (sc : Scene) (t : String) : List String :=
  (sc.shapes.lookup t).getD []

/-- The occupied entries of `sh.aiFilters` (index, source plug). -/
def Scene.entriesOf (sc : Scene) (sh : String) : List (Nat × String) :=
  (sc.filters.lookup sh).getD []

/-- The destination plug string built by the script for one array element. -/
def destPlug (sh : String) (i : Nat) : String :=
  sh ++ ".aiFilters[" ++ toString i ++ "]"

/-- The source plug string `blocker + ".message"`. -/
def msgPlug (b : String) : String := b ++ ".message"

/-- The next-free-index computation inside `connect_blocker`:
`next_index = 0; if current_indices: for idx in range(1000): if idx not in
current_indices: next_index = idx; break`.  A `None` result of
`cmds.getAttr(multiIndices=True)` is modelled as the empty list. -/
def nextIndex (current_indices : List Nat) : Nat :=
  if current_indices.isEmpty then 0
  else
    match (List.range 1000).find? (fun idx => !current_indices.contains idx) with
    | some idx => idx
    | none => 0

/-- `pick_light_blocker`: store the first selected object in the text field. -/
def pick_light_blocker (sc : Scene) (ui : UIState) : UIState × List String :=
  match sc.selection with
  | [] => (ui, ["No objects selected to set as Light Blocker."])
  | blocker :: _ => ({ ui with blockerField := blocker }, [])

/-- The `for obj in selection` loop of `add_selected_lights`: the widget content
is re-queried on every iteration and `obj` is appended only when absent. -/
def addLoop : List String → List String → List String
  | [], items => items
  | obj :: rest, items =>
    if obj ∈ items then addLoop rest items else addLoop rest (items ++ [obj])

/-- `add_selected_lights`. -/
def add_selected_lights (sc : Scene) (ui : UIState) : UIState × List String :=
  if sc.selection.isEmpty then (ui, ["No lights selected to add."])
  else ({ ui with lightList := addLoop sc.selection ui.lightList }, [])

/-- The `for item in selected_in_list` loop of `remove_selected_lights`.
Removing an item from a `textScrollList` also drops it from the widget
selection, which is host-widget behaviour. -/
def removeLoop : List String → UIState → UIState
  | [], ui => ui
  | item :: rest, ui =>
    removeLoop rest
      { ui with
        lightList := ui.lightList.filter (fun x => !(x == item)),
        listSelection := ui.listSelection.filter (fun x => !(x == item)) }

/-- `remove_selected_lights`. -/
def remove_selected_lights (ui : UIState) : UIState × List String :=
  if ui.listSelection.isEmpty then
    (ui, ["No lights selected in the list to remove."])
  else (removeLoop ui.listSelection ui, [])

/-- Replace (or append) the entry list of shape `sh` in the filters table. -/
def setEntries : List (String × List (Nat × String)) → String → List (Nat × String) →
    List (String × List (Nat × String))
  | [], sh, es => [(sh, es)]
  | (k, v) :: rest, sh, es =>
    if k == sh then (sh, es) :: rest else (k, v) :: setEntries rest sh es

/-- `cmds.connectAttr(src, destPlug sh i, f=True)`: the host parses the
destination plug back into shape and index; it raises when that plug is locked,
otherwise it occupies index `i` with source `src`. -/
def connectAttr (sc : Scene) (src : String) (sh : String) (i : Nat) : Option Scene :=
  if destPlug sh i ∈ sc.locked then none
  else
    some { sc with
      filters := setEntries sc.filters sh
        ((sc.entriesOf sh).filter (fun e => !(e.1 == i)) ++ [(i, src)]) }

/-- The body of the `for light_transform in lights` loop of `connect_blocker`. -/
def connectLight (blocker : String) (sc : Scene) (light_transform : String) :
    Scene × List String :=
  match sc.shapesOf light_transform with
  | [] => (sc, ["No shape found under " ++ light_transform ++ ". Skipping..."])
  | light_shape :: _ =>
    let current_indices := (sc.entriesOf light_shape).map Prod.fst
    let next_index := nextIndex current_indices
    let dest_attr := destPlug light_shape next_index
    match connectAttr sc (msgPlug blocker) light_shape next_index with
    | some sc2 => (sc2, [])
    | none =>
      (sc, ["Could not connect " ++ msgPlug blocker ++ " -> " ++ dest_attr ++
            ": locked attribute"])

/-- The `for light_transform in lights` loop of `connect_blocker`. -/
def connectLoop (blocker : String) : Scene → List String → Scene × List String
  | sc, [] => (sc, [])
  | sc, l :: ls =>
    let r := connectLight blocker sc l
    let r2 := connectLoop blocker r.1 ls
    (r2.1, r.2 ++ r2.2)

/-- `connect_blocker`. -/
def connect_blocker (sc : Scene) (ui : UIState) : Scene × List String :=
  if ui.blockerField = "" ∨ ¬ ui.blockerField ∈ sc.objects then
    (sc, ["Invalid or no Light Blocker specified."])
  else if ui.lightList.isEmpty then (sc, ["No lights in the list to connect."])
  else connectLoop ui.blockerField sc ui.lightList

/-- Remove from every shape every entry whose formatted destination plug is
`dest` and whose source plug is `src`. -/
def removeMatch (filters : List (String × List (Nat × String))) (src dest : String) :
    List (String × List (Nat × String)) :=
  filters.map (fun p => (p.1, p.2.filter (fun e => !(destPlug p.1 e.1 == dest && e.2 == src))))

/-- `cmds.disconnectAttr(src, dest)`: the host raises when no such connection
exists, otherwise it removes it. -/
def disconnectAttr (sc : Scene) (src dest : String) : Option Scene :=
  if removeMatch sc.filters src dest = sc.filters then none
  else some { sc with filters := removeMatch sc.filters src dest }

/-- The flat pair list returned by
`cmds.listConnections(sh + ".aiFilters", plugs=True, connections=True)`:
`[destAttr, sourceAttr, destAttr, sourceAttr, ...]`. -/
def connListing (sh : String) : List (Nat × String) → List String
  | [] => []
  | e :: es => destPlug sh e.1 :: e.2 :: connListing sh es

/-- `listConnections` on a shape of the scene. -/
def listConnections (sc : Scene) (sh : String) : List String :=
  connListing sh (sc.entriesOf sh)

/-- The pair `(d, s)` occurs at an even offset of the flat connection listing
`L` (destination followed by source), the shape in which the pair loop of
`disconnect_blocker` reads `L`. -/
def pairMem (d s : String) : List String → Prop
  | d2 :: s2 :: rest => (d = d2 ∧ s = s2) ∨ pairMem d s rest
  | _ => False

/-- The `for i in range(0, len(connections), 2)` loop of `disconnect_blocker`. -/
def pairLoop (blocker : String) : Scene → List String → Scene × List String
  | sc, dest_plug :: src_plug :: rest =>
    if msgPlug blocker == src_plug && strIn ".aiFilters[" dest_plug then
      match disconnectAttr sc src_plug dest_plug with
      | some sc2 => pairLoop blocker sc2 rest
      | none =>
        let r := pairLoop blocker sc rest
        (r.1, ("Could not disconnect " ++ src_plug ++ " -> " ++ dest_plug ++
               ": not connected") :: r.2)
    else pairLoop blocker sc rest
  | sc, _ => (sc, [])

/-- The body of the `for light_transform in lights` loop of `disconnect_blocker`. -/
def disconnectLight (blocker : String) (sc : Scene) (light_transform : String) :
    Scene × List String :=
  match sc.shapesOf light_transform with
  | [] => (sc, ["No shape found under " ++ light_transform ++ ". Skipping..."])
  | light_shape :: _ => pairLoop blocker sc (listConnections sc light_shape)

/-- The `for light_transform in lights` loop of `disconnect_blocker`. -/
def disconnectLoop (blocker : String) : Scene → List String → Scene × List String
  | sc, [] => (sc, [])
  | sc, l :: ls =>
    let r := disconnectLight blocker sc l
    let r2 := disconnectLoop blocker r.1 ls
    (r2.1, r.2 ++ r2.2)

/-- `disconnect_blocker`. -/
def disconnect_blocker (sc : Scene) (ui : UIState) : Scene × List String :=
  if ui.blockerField = "" ∨ ¬ ui.blockerField ∈ sc.objects then
    (sc, ["Invalid or no Light Blocker specified."])
  else if ui.lightList.isEmpty then (sc, ["No lights in the list to disconnect."])
  else disconnectLoop ui.blockerField sc ui.lightList

/-- The five user-triggered actions as transformers of the combined
scene-and-widget state, warnings dropped. -/
def pickStep (w : Scene × UIState) : Scene × UIState :=
  (w.1, (pick_light_blocker w.1 w.2).1)

/-- `add_selected_lights` as a state transformer. -/
def addStep (w : Scene × UIState) : Scene × UIState :=
  (w.1, (add_selected_lights w.1 w.2).1)

/-- `remove_selected_lights` as a state transformer. -/
def removeStep (w : Scene × UIState) : Scene × UIState :=
  (w.1, (remove_selected_lights w.2).1)

/-- `connect_blocker` as a state transformer. -/
def connectStep (w : Scene × UIState) : Scene × UIState :=
  ((connect_blocker w.1 w.2).1, w.2)

/-- `disconnect_blocker` as a state transformer. -/
def disconnectStep (w : Scene × UIState) : Scene × UIState :=
  ((disconnect_blocker w.1 w.2).1, w.2)

/-- An `aiFilters` entry list occupying every index in `[0, 1000)`. -/
def fullEntries : List (Nat × String) := (List.range 1000).map (fun i => (i, "x.message"))

/-- A scene whose light shape has every index of the search range occupied. -/
def scFull : Scene :=
  { objects := ["b", "L"], selection := [], shapes := [("L", ["LShape"])],
    filters := [("LShape", fullEntries)], locked := [] }

/-- An empty window state. -/
def uiEmpty : UIState := { blockerField := "", lightList := [], listSelection := [] }

/-- A scene with two selected objects and nothing else. -/
def scPick : Scene :=
  { objects := [], selection := ["a", "c"], shapes := [], filters := [], locked := [] }

/-- A scene whose light shape refuses the connection at array element 0. -/
def scLockedZero : Scene :=
  { objects := ["b", "L"], selection := [], shapes := [("L", ["LShape"])],
    filters := [], locked := [destPlug "LShape" 0] }

/-- A scene whose light shape holds the blocker at two indices and a foreign
source at another. -/
def scDisc : Scene :=
  { objects := ["b", "L"], selection := [],
    shapes := [("L", ["LShape"])],
    filters := [("LShape", [(0, "b.message"), (1, "o.message"), (2, "b.message")])],
    locked := [] }

/-- A window state naming blocker `b` and the single light `L`. -/
def uiConn : UIState := { blockerField := "b", lightList := ["L"], listSelection := [] }

/-- A scene with a blocker `b` and one light `L` whose shape has an empty
`aiFilters` array. -/
def scConn : Scene :=
  { objects := ["b", "L"], selection := [], shapes := [("L", ["LShape"])],
    filters := [], locked := [] }

/-- A scene whose light shape has no connection from the blocker `b`. -/
def scNoMatch : Scene :=
  { objects := ["b", "L"], selection := [], shapes := [("L", ["LShape"])],
    filters := [("LShape", [(5, "o.message")])], locked := [] }

/-- A scene selecting the names `a`, `b`, `a` (note the repetition). -/
def scAddSel : Scene :=
  { objects := [], selection := ["a", "b", "a"], shapes := [], filters := [], locked := [] }

/-- A window state whose light list already holds `b` and `c`. -/
def uiAdd : UIState := { blockerField := "", lightList := ["b", "c"], listSelection := [] }

/-! ## Helper lemmas -/

theorem connectLoop_cons (blocker : String) (sc : Scene) (l : String) (ls : List String) :
    connectLoop blocker sc (l :: ls) =
      ((connectLoop blocker (connectLight blocker sc l).1 ls).1,
       (connectLight blocker sc l).2 ++ (connectLoop blocker (connectLight blocker sc l).1 ls).2) :=
  rfl

theorem disconnectLoop_cons (blocker : String) (sc : Scene) (l : String) (ls : List String) :
    disconnectLoop blocker sc (l :: ls) =
      ((disconnectLoop blocker (disconnectLight blocker sc l).1 ls).1,
       (disconnectLight blocker sc l).2 ++
         (disconnectLoop blocker (disconnectLight blocker sc l).1 ls).2) :=
  rfl

theorem connectLight_noShape (blocker : String) (sc : Scene) (l : String)
    (h : sc.shapesOf l = []) :
    connectLight blocker sc l = (sc, ["No shape found under " ++ l ++ ". Skipping..."]) := by
  unfold connectLight
  rw [h]

theorem connectLight_locked (blocker : String) (sc : Scene) (l sh : String)
    (rest : List String) (h : sc.shapesOf l = sh :: rest)
    (hlock : destPlug sh (nextIndex ((sc.entriesOf sh).map Prod.fst)) ∈ sc.locked) :
    connectLight blocker sc l =
      (sc, ["Could not connect " ++ msgPlug blocker ++ " -> " ++
            destPlug sh (nextIndex ((sc.entriesOf sh).map Prod.fst)) ++
            ": locked attribute"]) := by
  unfold connectLight
  rw [h]
  have hca : connectAttr sc (msgPlug blocker) sh
      (nextIndex ((sc.entriesOf sh).map Prod.fst)) = none := by
    unfold connectAttr
    rw [if_pos hlock]
  simp only [hca]

theorem addLoop_mem_mono : ∀ (sel items : List String) (x : String),
    x ∈ items → x ∈ addLoop sel items := by
  intro sel
  induction sel with
  | nil => intro items x hx; exact hx
  | cons obj rest ih =>
    intro items x hx
    unfold addLoop
    by_cases ho : obj ∈ items
    · rw [if_pos ho]; exact ih items x hx
    · rw [if_neg ho]; exact ih _ x (List.mem_append_left _ hx)

theorem addLoop_mem_sel : ∀ (sel items : List String) (x : String),
    x ∈ sel → x ∈ addLoop sel items := by
  intro sel
  induction sel with
  | nil => intro items x hx; cases hx
  | cons obj rest ih =>
    intro items x hx
    unfold addLoop
    rcases List.mem_cons.mp hx with hx | hx
    · subst hx
      by_cases ho : x ∈ items
      · rw [if_pos ho]; exact addLoop_mem_mono rest items x ho
      · rw [if_neg ho]
        exact addLoop_mem_mono rest _ x (List.mem_append_right _ (List.mem_singleton.mpr rfl))
    · by_cases ho : obj ∈ items
      · rw [if_pos ho]; exact ih items x hx
      · rw [if_neg ho]; exact ih _ x hx

theorem addLoop_noop : ∀ (sel items : List String),
    (∀ x ∈ sel, x ∈ items) → addLoop sel items = items := by
  intro sel
  induction sel with
  | nil => intro items _; rfl
  | cons obj rest ih =>
    intro items hall
    unfold addLoop
    rw [if_pos (hall obj (List.mem_cons_self obj rest))]
    exact ih items (fun x hx => hall x (List.mem_cons_of_mem _ hx))

theorem addLoop_nodup : ∀ (sel items : List String),
    items.Nodup → (addLoop sel items).Nodup := by
  intro sel
  induction sel with
  | nil => intro items h; exact h
  | cons obj rest ih =>
    intro items h
    unfold addLoop
    by_cases ho : obj ∈ items
    · rw [if_pos ho]; exact ih items h
    · rw [if_neg ho]
      refine ih _ ?_
      rw [List.nodup_append]
      refine ⟨h, List.nodup_singleton _, ?_⟩
      intro a ha hmem
      rw [List.mem_singleton] at hmem
      exact ho (hmem ▸ ha)

theorem find_range_first {p : Nat → Bool} : ∀ {n m : Nat},
    (List.range n).find? p = some m → p m = true ∧ ∀ k < m, p k = false := by
  intro n
  induction n with
  | zero => intro m h; simp at h
  | succ n ih =>
    intro m h
    rw [List.range_succ, List.find?_append] at h
    cases hf : (List.range n).find? p with
    | some m2 =>
      rw [hf, Option.or_some] at h
      injection h with h
      subst h
      exact ih hf
    | none =>
      rw [hf, Option.none_or] at h
      have hall : ∀ k, k ∈ List.range n → ¬ p k := List.find?_eq_none.mp hf
      by_cases hp : p n = true
      · rw [List.find?_cons_of_pos _ hp] at h
        cases h
        refine ⟨hp, fun k hk => ?_⟩
        have := hall k (List.mem_range.mpr hk)
        simpa using this
      · rw [List.find?_cons_of_neg] at h
        · simp at h
        · simpa using hp

theorem find_range_exists {p : Nat → Bool} {n i : Nat} (hi : i < n) (hp : p i = true) :
    ∃ m, (List.range n).find? p = some m := by
  cases hf : (List.range n).find? p with
  | some m => exact ⟨m, rfl⟩
  | none =>
    exact absurd hp (by simpa using List.find?_eq_none.mp hf i (List.mem_range.mpr hi))

theorem nextIndex_mex (s : List Nat) (h : ∃ i, i < 1000 ∧ ¬ i ∈ s) :
    ¬ nextIndex s ∈ s ∧ ∀ m < nextIndex s, m ∈ s := by
  obtain ⟨i, hi, his⟩ := h
  match s with
  | [] =>
    exact ⟨by simp [nextIndex], by simp [nextIndex]⟩
  | a :: s2 =>
    have hne : (a :: s2).isEmpty = false := rfl
    obtain ⟨m, hm⟩ := find_range_exists (p := fun idx => !(a :: s2).contains idx) hi
      (by simpa using his)
    obtain ⟨h1, h2⟩ := find_range_first hm
    have hval : nextIndex (a :: s2) = m := by
      unfold nextIndex
      rw [hne, hm]
      simp
    rw [hval]
    constructor
    · simpa using h1
    · intro k hk
      have h3 := h2 k hk
      simp at h3
      simp [List.mem_cons]
      rcases Classical.em (k = a) with hka | hka
      · exact Or.inl hka
      · exact Or.inr (h3 hka)

theorem nextIndex_full (s : List Nat) (h2 : s ≠ []) (h3 : ∀ i < 1000, i ∈ s) :
    nextIndex s = 0 := by
  have hne : s.isEmpty = false := by
    cases s
    · exact absurd rfl h2
    · rfl
  have hfind : (List.range 1000).find? (fun idx => !s.contains idx) = none := by
    rw [List.find?_eq_none]
    intro x hx
    simpa using h3 x (List.mem_range.mp hx)
  unfold nextIndex
  rw [hne, hfind]
  simp

theorem lookup_setEntries (f : List (String × List (Nat × String))) (sh : String)
    (es : List (Nat × String)) : List.lookup sh (setEntries f sh es) = some es := by
  induction f with
  | nil => simp [setEntries, List.lookup]
  | cons p rest ih =>
    rcases p with ⟨k, v⟩
    by_cases hk : k = sh
    · subst hk
      simp [setEntries, List.lookup]
    · have hk1 : (k == sh) = false := by simpa using hk
      have hk2 : (sh == k) = false := by simpa using Ne.symm hk
      simp [setEntries, hk1, List.lookup, hk2, ih]

theorem strStarts_self : ∀ (s t : List Char), strStarts s (s ++ t) = true
  | [], _ => rfl
  | a :: as, t => by
    unfold strStarts
    simp [strStarts_self as t]

theorem strHas_self_append : ∀ (sub post : List Char), strHas sub (sub ++ post) = true
  | [], post => by cases post <;> simp [strHas, strStarts]
  | a :: as, post => by
    show strHas (a :: as) (a :: (as ++ post)) = true
    unfold strHas
    have h := strStarts_self (a :: as) post
    rw [List.cons_append] at h
    rw [h]
    simp

theorem strHas_of_append : ∀ (pre sub post : List Char),
    strHas sub (pre ++ (sub ++ post)) = true
  | [], sub, post => by
    rw [List.nil_append]
    exact strHas_self_append sub post
  | c :: pre, sub, post => by
    rw [List.cons_append]
    unfold strHas
    rw [strHas_of_append pre sub post]
    simp

theorem destPlug_has (sh : String) (i : Nat) :
    strIn ".aiFilters[" (destPlug sh i) = true := by
  unfold strIn destPlug
  simp only [String.toList, String.data_append]
  rw [List.append_assoc, List.append_assoc]
  exact strHas_of_append _ _ _

theorem lookup_removeMatch (src dest sh : String) :
    ∀ f : List (String × List (Nat × String)),
      List.lookup sh (removeMatch f src dest) =
        (List.lookup sh f).map
          (fun es => es.filter (fun e => !(destPlug sh e.1 == dest && e.2 == src)))
  | [] => rfl
  | (k, v) :: rest => by
    by_cases hk : sh = k
    · subst hk
      simp [removeMatch, List.lookup]
    · have hk2 : (sh == k) = false := by simpa using hk
      have ih := lookup_removeMatch src dest sh rest
      unfold removeMatch at ih ⊢
      simp only [List.map_cons, List.lookup, hk2]
      exact ih

theorem entriesOf_removeMatch (sc : Scene) (src dest sh : String) :
    Scene.entriesOf { sc with filters := removeMatch sc.filters src dest } sh =
      (sc.entriesOf sh).filter (fun e => !(destPlug sh e.1 == dest && e.2 == src)) := by
  unfold Scene.entriesOf
  rw [lookup_removeMatch]
  cases List.lookup sh sc.filters with
  | none => rfl
  | some es => rfl

theorem disconnectAttr_some_entries {sc sc2 : Scene} {src dest : String}
    (h : disconnectAttr sc src dest = some sc2) (sh : String) :
    sc2.entriesOf sh =
      (sc.entriesOf sh).filter (fun e => !(destPlug sh e.1 == dest && e.2 == src)) := by
  unfold disconnectAttr at h
  by_cases hc : removeMatch sc.filters src dest = sc.filters
  · rw [if_pos hc] at h; cases h
  · rw [if_neg hc] at h
    injection h with h
    rw [← h]
    exact entriesOf_removeMatch sc src dest sh

theorem disconnectAttr_none_entries {sc : Scene} {src dest : String}
    (h : disconnectAttr sc src dest = none) (sh : String) :
    (sc.entriesOf sh).filter (fun e => !(destPlug sh e.1 == dest && e.2 == src)) =
      sc.entriesOf sh := by
  unfold disconnectAttr at h
  by_cases hc : removeMatch sc.filters src dest = sc.filters
  · have := entriesOf_removeMatch sc src dest sh
    rw [hc] at this
    rw [← this]
  · rw [if_neg hc] at h; cases h

theorem disconnectAttr_some_fields {sc sc2 : Scene} {src dest : String}
    (h : disconnectAttr sc src dest = some sc2) :
    sc2.objects = sc.objects ∧ sc2.selection = sc.selection ∧
    sc2.shapes = sc.shapes ∧ sc2.locked = sc.locked := by
  unfold disconnectAttr at h
  by_cases hc : removeMatch sc.filters src dest = sc.filters
  · rw [if_pos hc] at h; cases h
  · rw [if_neg hc] at h
    injection h with h
    rw [← h]
    exact ⟨rfl, rfl, rfl, rfl⟩

theorem pairLoop_cons_true_some {blocker d s : String} {rest : List String} {sc sc2 : Scene}
    (hm : (msgPlug blocker == s && strIn ".aiFilters[" d) = true)
    (hda : disconnectAttr sc s d = some sc2) :
    pairLoop blocker sc (d :: s :: rest) = pairLoop blocker sc2 rest := by
  conv_lhs => rw [pairLoop]
  rw [if_pos hm, hda]

theorem pairLoop_cons_true_none {blocker d s : String} {rest : List String} {sc : Scene}
    (hm : (msgPlug blocker == s && strIn ".aiFilters[" d) = true)
    (hda : disconnectAttr sc s d = none) :
    pairLoop blocker sc (d :: s :: rest) =
      ((pairLoop blocker sc rest).1,
       ("Could not disconnect " ++ s ++ " -> " ++ d ++ ": not connected") ::
         (pairLoop blocker sc rest).2) := by
  conv_lhs => rw [pairLoop]
  rw [if_pos hm, hda]

theorem pairLoop_cons_false {blocker d s : String} {rest : List String} {sc : Scene}
    (hm : ¬ (msgPlug blocker == s && strIn ".aiFilters[" d) = true) :
    pairLoop blocker sc (d :: s :: rest) = pairLoop blocker sc rest := by
  conv_lhs => rw [pairLoop]
  rw [if_neg hm]

theorem mem_connListing (sh : String) :
    ∀ (es : List (Nat × String)) (e : Nat × String), e ∈ es →
      pairMem (destPlug sh e.1) e.2 (connListing sh es)
  | [], e, he => absurd he (List.not_mem_nil e)
  | e2 :: es, e, he => by
    rcases List.mem_cons.mp he with h | h
    · subst h
      exact Or.inl ⟨rfl, rfl⟩
    · exact Or.inr (mem_connListing sh es e h)

theorem pairLoop_entries (blocker sh : String) :
    ∀ (L : List String) (sc : Scene), ∃ p : Nat × String → Bool,
      (pairLoop blocker sc L).1.entriesOf sh = (sc.entriesOf sh).filter p ∧
      ∀ e : Nat × String, (e.2 == msgPlug blocker) = false → p e = true
  | [], sc => ⟨fun _ => true, by simp [pairLoop], fun _ _ => rfl⟩
  | [d], sc => ⟨fun _ => true, by simp [pairLoop], fun _ _ => rfl⟩
  | d :: s :: rest, sc => by
    by_cases hm : (msgPlug blocker == s && strIn ".aiFilters[" d) = true
    · have hs : msgPlug blocker = s := eq_of_beq (Bool.and_eq_true_iff.mp hm).1
      cases hda : disconnectAttr sc s d with
      | some sc2 =>
        obtain ⟨p2, h1, h2⟩ := pairLoop_entries blocker sh rest sc2
        refine ⟨fun e => p2 e && !(destPlug sh e.1 == d && e.2 == s), ?_, ?_⟩
        · rw [pairLoop_cons_true_some hm hda, h1, disconnectAttr_some_entries hda sh,
            List.filter_filter]
        · intro e he
          simp only []
          rw [h2 e he, ← hs, he]
          simp
      | none =>
        obtain ⟨p2, h1, h2⟩ := pairLoop_entries blocker sh rest sc
        refine ⟨fun e => p2 e && !(destPlug sh e.1 == d && e.2 == s), ?_, ?_⟩
        · rw [pairLoop_cons_true_none hm hda]
          show (pairLoop blocker sc rest).1.entriesOf sh = _
          rw [h1]
          conv_lhs => rw [← disconnectAttr_none_entries hda sh]
          rw [List.filter_filter]
        · intro e he
          simp only []
          rw [h2 e he, ← hs, he]
          simp
    · obtain ⟨p2, h1, h2⟩ := pairLoop_entries blocker sh rest sc
      exact ⟨p2, by rw [pairLoop_cons_false hm]; exact h1, h2⟩

theorem pairLoop_fields (blocker : String) :
    ∀ (L : List String) (sc : Scene),
      (pairLoop blocker sc L).1.objects = sc.objects ∧
      (pairLoop blocker sc L).1.selection = sc.selection ∧
      (pairLoop blocker sc L).1.shapes = sc.shapes ∧
      (pairLoop blocker sc L).1.locked = sc.locked
  | [], sc => ⟨rfl, rfl, rfl, rfl⟩
  | [d], sc => ⟨rfl, rfl, rfl, rfl⟩
  | d :: s :: rest, sc => by
    by_cases hm : (msgPlug blocker == s && strIn ".aiFilters[" d) = true
    · cases hda : disconnectAttr sc s d with
      | some sc2 =>
        obtain ⟨f1, f2, f3, f4⟩ := disconnectAttr_some_fields hda
        obtain ⟨g1, g2, g3, g4⟩ := pairLoop_fields blocker rest sc2
        rw [pairLoop_cons_true_some hm hda]
        exact ⟨g1.trans f1, g2.trans f2, g3.trans f3, g4.trans f4⟩
      | none =>
        obtain ⟨g1, g2, g3, g4⟩ := pairLoop_fields blocker rest sc
        rw [pairLoop_cons_true_none hm hda]
        exact ⟨g1, g2, g3, g4⟩
    · obtain ⟨g1, g2, g3, g4⟩ := pairLoop_fields blocker rest sc
      rw [pairLoop_cons_false hm]
      exact ⟨g1, g2, g3, g4⟩

theorem pairLoop_clears (blocker sh : String) :
    ∀ (L : List String) (sc : Scene),
      (∀ e ∈ sc.entriesOf sh, e.2 = msgPlug blocker →
        pairMem (destPlug sh e.1) (msgPlug blocker) L) →
      ∀ e ∈ (pairLoop blocker sc L).1.entriesOf sh, e.2 ≠ msgPlug blocker
  | [], sc => by
    intro hinv e he hmsg
    exact hinv e he hmsg
  | [d], sc => by
    intro hinv e he hmsg
    exact hinv e he hmsg
  | d :: s :: rest, sc => by
    intro hinv
    by_cases hm : (msgPlug blocker == s && strIn ".aiFilters[" d) = true
    · have hs : msgPlug blocker = s := eq_of_beq (Bool.and_eq_true_iff.mp hm).1
      cases hda : disconnectAttr sc s d with
      | some sc2 =>
        rw [pairLoop_cons_true_some hm hda]
        apply pairLoop_clears blocker sh rest sc2
        intro e he hmsg
        rw [disconnectAttr_some_entries hda sh] at he
        have hq := (List.mem_filter.mp he).2
        cases hinv e (List.mem_filter.mp he).1 hmsg with
        | inl hfst =>
          exfalso
          have hc : (destPlug sh e.1 == d && e.2 == s) = true := by
            rw [hfst.1, hmsg, ← hs]
            simp
          rw [hc] at hq
          cases hq
        | inr h => exact h
      | none =>
        rw [pairLoop_cons_true_none hm hda]
        show ∀ e ∈ (pairLoop blocker sc rest).1.entriesOf sh, e.2 ≠ msgPlug blocker
        apply pairLoop_clears blocker sh rest sc
        intro e he hmsg
        have he2 : e ∈ (sc.entriesOf sh).filter
            (fun e => !(destPlug sh e.1 == d && e.2 == s)) := by
          rw [disconnectAttr_none_entries hda sh]
          exact he
        have hq := (List.mem_filter.mp he2).2
        cases hinv e he hmsg with
        | inl hfst =>
          exfalso
          have hc : (destPlug sh e.1 == d && e.2 == s) = true := by
            rw [hfst.1, hmsg, ← hs]
            simp
          rw [hc] at hq
          cases hq
        | inr h => exact h
    · rw [pairLoop_cons_false hm]
      apply pairLoop_clears blocker sh rest sc
      intro e he hmsg
      cases hinv e he hmsg with
      | inl hfst =>
        exfalso
        apply hm
        rw [Bool.and_eq_true]
        refine ⟨beq_iff_eq.mpr hfst.2, ?_⟩
        rw [← hfst.1]
        exact destPlug_has sh e.1
      | inr h => exact h

theorem pairLoop_skip (blocker sh : String) :
    ∀ (es : List (Nat × String)) (sc : Scene),
      (∀ e ∈ es, e.2 ≠ msgPlug blocker) →
      pairLoop blocker sc (connListing sh es) = (sc, [])
  | [], sc, _ => rfl
  | e :: es, sc, h => by
    have hs : (msgPlug blocker == e.2) = false := by
      simp
      exact fun hc => h e (List.mem_cons_self e es) hc.symm
    show pairLoop blocker sc (destPlug sh e.1 :: e.2 :: connListing sh es) = (sc, [])
    rw [pairLoop_cons_false (by rw [hs]; simp)]
    exact pairLoop_skip blocker sh es sc (fun x hx => h x (List.mem_cons_of_mem e hx))

theorem disconnectLight_noShape (blocker : String) (sc : Scene) (l : String)
    (h : sc.shapesOf l = []) :
    disconnectLight blocker sc l =
      (sc, ["No shape found under " ++ l ++ ". Skipping..."]) := by
  unfold disconnectLight
  rw [h]

theorem disconnectLight_shape (blocker : String) (sc : Scene) (l sh : String)
    (rest : List String) (h : sc.shapesOf l = sh :: rest) :
    disconnectLight blocker sc l =
      pairLoop blocker sc (connListing sh (sc.entriesOf sh)) := by
  unfold disconnectLight listConnections
  rw [h]

theorem disconnectLight_fields (blocker : String) (sc : Scene) (l : String) :
    (disconnectLight blocker sc l).1.objects = sc.objects ∧
    (disconnectLight blocker sc l).1.selection = sc.selection ∧
    (disconnectLight blocker sc l).1.shapes = sc.shapes ∧
    (disconnectLight blocker sc l).1.locked = sc.locked := by
  cases hsh : sc.shapesOf l with
  | nil =>
    rw [disconnectLight_noShape blocker sc l hsh]
    exact ⟨rfl, rfl, rfl, rfl⟩
  | cons sh rest =>
    rw [disconnectLight_shape blocker sc l sh rest hsh]
    exact pairLoop_fields blocker _ sc

theorem disconnectLight_entries (blocker : String) (sc : Scene) (l sh : String)
    (rest : List String) (hsh : sc.shapesOf l = sh :: rest) :
    (disconnectLight blocker sc l).1.entriesOf sh =
      (sc.entriesOf sh).filter (fun e => !(e.2 == msgPlug blocker)) := by
  rw [disconnectLight_shape blocker sc l sh rest hsh]
  obtain ⟨p, h1, h2⟩ := pairLoop_entries blocker sh (connListing sh (sc.entriesOf sh)) sc
  have hclear : ∀ e ∈ (pairLoop blocker sc (connListing sh (sc.entriesOf sh))).1.entriesOf sh,
      e.2 ≠ msgPlug blocker := by
    apply pairLoop_clears blocker sh _ sc
    intro e he hm
    have hpm := mem_connListing sh (sc.entriesOf sh) e he
    rw [hm] at hpm
    exact hpm
  rw [h1]
  apply List.filter_congr
  intro e he
  by_cases hb : (e.2 == msgPlug blocker) = true
  · rw [hb]
    have hne : e.2 = msgPlug blocker := eq_of_beq hb
    by_cases hp : p e = true
    · exfalso
      apply hclear e ?_ hne
      rw [h1]
      exact List.mem_filter.mpr ⟨he, hp⟩
    · simp at hp ⊢
      exact hp
  · have hbf : (e.2 == msgPlug blocker) = false := by simpa using hb
    rw [h2 e hbf, hbf]
    simp

theorem disconnectLight_clears (blocker : String) (sc : Scene) (l sh : String)
    (rest : List String) (hsh : sc.shapesOf l = sh :: rest) :
    ∀ e ∈ (disconnectLight blocker sc l).1.entriesOf sh, e.2 ≠ msgPlug blocker := by
  intro e he
  rw [disconnectLight_entries blocker sc l sh rest hsh] at he
  have := (List.mem_filter.mp he).2
  simpa using this

theorem disconnectLight_noMut (blocker : String) (sc : Scene) (l sh : String)
    (rest : List String) (hsh : sc.shapesOf l = sh :: rest)
    (hnm : ∀ e ∈ sc.entriesOf sh, e.2 ≠ msgPlug blocker) :
    disconnectLight blocker sc l = (sc, []) := by
  rw [disconnectLight_shape blocker sc l sh rest hsh]
  exact pairLoop_skip blocker sh (sc.entriesOf sh) sc hnm

theorem disconnectLight_preserve (blocker : String) (sc : Scene) (l sh0 : String)
    (hnm : ∀ e ∈ sc.entriesOf sh0, e.2 ≠ msgPlug blocker) :
    ∀ e ∈ (disconnectLight blocker sc l).1.entriesOf sh0, e.2 ≠ msgPlug blocker := by
  cases hsh : sc.shapesOf l with
  | nil =>
    rw [disconnectLight_noShape blocker sc l hsh]
    exact hnm
  | cons sh rest =>
    rw [disconnectLight_shape blocker sc l sh rest hsh]
    obtain ⟨p, h1, _⟩ := pairLoop_entries blocker sh0 (connListing sh (sc.entriesOf sh)) sc
    intro e he
    rw [h1] at he
    exact hnm e (List.mem_filter.mp he).1

theorem disconnectLoop_fields (blocker : String) :
    ∀ (L : List String) (sc : Scene),
      (disconnectLoop blocker sc L).1.objects = sc.objects ∧
      (disconnectLoop blocker sc L).1.selection = sc.selection ∧
      (disconnectLoop blocker sc L).1.shapes = sc.shapes ∧
      (disconnectLoop blocker sc L).1.locked = sc.locked
  | [], sc => ⟨rfl, rfl, rfl, rfl⟩
  | l :: ls, sc => by
    obtain ⟨f1, f2, f3, f4⟩ := disconnectLight_fields blocker sc l
    obtain ⟨g1, g2, g3, g4⟩ :=
      disconnectLoop_fields blocker ls (disconnectLight blocker sc l).1
    exact ⟨g1.trans f1, g2.trans f2, g3.trans f3, g4.trans f4⟩

theorem disconnectLoop_preserve (blocker : String) :
    ∀ (L : List String) (sc : Scene) (sh0 : String),
      (∀ e ∈ sc.entriesOf sh0, e.2 ≠ msgPlug blocker) →
      ∀ e ∈ (disconnectLoop blocker sc L).1.entriesOf sh0, e.2 ≠ msgPlug blocker
  | [], sc, sh0, hnm => hnm
  | l :: ls, sc, sh0, hnm =>
    disconnectLoop_preserve blocker ls (disconnectLight blocker sc l).1 sh0
      (disconnectLight_preserve blocker sc l sh0 hnm)

theorem disconnectLoop_clears (blocker : String) :
    ∀ (L : List String) (sc : Scene) (l : String), l ∈ L →
      ∀ sh rest, sc.shapesOf l = sh :: rest →
      ∀ e ∈ (disconnectLoop blocker sc L).1.entriesOf sh, e.2 ≠ msgPlug blocker
  | [], sc, l, hl => absurd hl (List.not_mem_nil l)
  | l0 :: ls, sc, l, hl => by
    intro sh rest hsh e he
    have he2 : e ∈ (disconnectLoop blocker (disconnectLight blocker sc l0).1 ls).1.entriesOf sh :=
      he
    rcases List.mem_cons.mp hl with h | h
    · subst h
      exact disconnectLoop_preserve blocker ls (disconnectLight blocker sc l).1 sh
        (disconnectLight_clears blocker sc l sh rest hsh) e he2
    · have hsh1 : (disconnectLight blocker sc l0).1.shapesOf l = sh :: rest := by
        unfold Scene.shapesOf
        rw [(disconnectLight_fields blocker sc l0).2.2.1]
        exact hsh
      exact disconnectLoop_clears blocker ls (disconnectLight blocker sc l0).1 l h
        sh rest hsh1 e he2

theorem disconnectLoop_noMut (blocker : String) :
    ∀ (L : List String) (sc : Scene),
      (∀ l ∈ L, sc.shapesOf l ≠ []) →
      (∀ l ∈ L, ∀ e ∈ sc.entriesOf ((sc.shapesOf l).headD ""), e.2 ≠ msgPlug blocker) →
      disconnectLoop blocker sc L = (sc, [])
  | [], sc, _, _ => rfl
  | l :: ls, sc, h1, h2 => by
    cases hsh : sc.shapesOf l with
    | nil => exact absurd hsh (h1 l (List.mem_cons_self l ls))
    | cons sh rest =>
      have hnm : ∀ e ∈ sc.entriesOf sh, e.2 ≠ msgPlug blocker := by
        have := h2 l (List.mem_cons_self l ls)
        rw [hsh] at this
        exact this
      have hlight : disconnectLight blocker sc l = (sc, []) :=
        disconnectLight_noMut blocker sc l sh rest hsh hnm
      have hrest : disconnectLoop blocker sc ls = (sc, []) :=
        disconnectLoop_noMut blocker ls sc
          (fun x hx => h1 x (List.mem_cons_of_mem l hx))
          (fun x hx => h2 x (List.mem_cons_of_mem l hx))
      rw [disconnectLoop_cons, hlight, hrest]
      simp

theorem disconnectLoop_scene_id (blocker : String) :
    ∀ (L : List String) (sc : Scene),
      (∀ l ∈ L, ∀ sh rest, sc.shapesOf l = sh :: rest →
        ∀ e ∈ sc.entriesOf sh, e.2 ≠ msgPlug blocker) →
      (disconnectLoop blocker sc L).1 = sc
  | [], _, _ => rfl
  | l :: ls, sc, h => by
    cases hsh : sc.shapesOf l with
    | nil =>
      have hlight : disconnectLight blocker sc l =
          (sc, ["No shape found under " ++ l ++ ". Skipping..."]) :=
        disconnectLight_noShape blocker sc l hsh
      show (disconnectLoop blocker (disconnectLight blocker sc l).1 ls).1 = sc
      rw [hlight]
      exact disconnectLoop_scene_id blocker ls sc
        (fun x hx => h x (List.mem_cons_of_mem l hx))
    | cons sh rest =>
      have hlight : disconnectLight blocker sc l = (sc, []) :=
        disconnectLight_noMut blocker sc l sh rest hsh
          (h l (List.mem_cons_self l ls) sh rest hsh)
      show (disconnectLoop blocker (disconnectLight blocker sc l).1 ls).1 = sc
      rw [hlight]
      exact disconnectLoop_scene_id blocker ls sc
        (fun x hx => h x (List.mem_cons_of_mem l hx))

theorem disconnect_blocker_valid (sc : Scene) (ui : UIState)
    (hb1 : ui.blockerField ≠ "") (hb2 : ui.blockerField ∈ sc.objects)
    (hne : ui.lightList ≠ []) :
    disconnect_blocker sc ui = disconnectLoop ui.blockerField sc ui.lightList := by
  unfold disconnect_blocker
  rw [if_neg (by push_neg; exact ⟨hb1, hb2⟩)]
  rw [if_neg (by simpa using hne)]

theorem disconnect_single_entries (sc : Scene) (ui : UIState) (light sh : String)
    (rest : List String) (hb1 : ui.blockerField ≠ "") (hb2 : ui.blockerField ∈ sc.objects)
    (hl : ui.lightList = [light]) (hsh : sc.shapesOf light = sh :: rest) :
    (disconnect_blocker sc ui).1.entriesOf sh =
      (sc.entriesOf sh).filter (fun e => !(e.2 == msgPlug ui.blockerField)) := by
  rw [disconnect_blocker_valid sc ui hb1 hb2 (by rw [hl]; simp), hl]
  show (disconnectLoop ui.blockerField
    (disconnectLight ui.blockerField sc light).1 []).1.entriesOf sh = _
  exact disconnectLight_entries ui.blockerField sc light sh rest hsh

theorem removeLoop_clears_sel : ∀ (sel : List String) (ui : UIState),
    (∀ x ∈ ui.listSelection, x ∈ sel) → (removeLoop sel ui).listSelection = []
  | [], ui, h => by
    have hnil : ui.listSelection = [] :=
      List.eq_nil_iff_forall_not_mem.mpr (fun a ha => (List.not_mem_nil a) (h a ha))
    show ui.listSelection = []
    exact hnil
  | i :: rest, ui, h => by
    apply removeLoop_clears_sel rest
    intro x hx
    have hm := List.mem_filter.mp hx
    have hne : ¬ (x == i) = true := by simpa using hm.2
    rcases List.mem_cons.mp (h x hm.1) with h1 | h1
    · exact absurd (beq_iff_eq.mpr h1) hne
    · exact h1

theorem pick_state_idem (sc : Scene) (ui : UIState) :
    (pick_light_blocker sc (pick_light_blocker sc ui).1).1 = (pick_light_blocker sc ui).1 := by
  unfold pick_light_blocker
  cases h : sc.selection with
  | nil => rfl
  | cons b rest => rfl

theorem add_state_idem (sc : Scene) (ui : UIState) :
    (add_selected_lights sc (add_selected_lights sc ui).1).1 =
      (add_selected_lights sc ui).1 := by
  by_cases h : sc.selection.isEmpty = true
  · have e1 : add_selected_lights sc ui = (ui, ["No lights selected to add."]) := by
      unfold add_selected_lights
      rw [if_pos h]
    rw [e1]
    rw [e1]
  · have e1 : add_selected_lights sc ui =
        ({ui with lightList := addLoop sc.selection ui.lightList}, []) := by
      unfold add_selected_lights
      rw [if_neg h]
    have e2 : add_selected_lights sc {ui with lightList := addLoop sc.selection ui.lightList} =
        ({ui with lightList := addLoop sc.selection (addLoop sc.selection ui.lightList)}, []) := by
      unfold add_selected_lights
      rw [if_neg h]
    rw [e1]
    show (add_selected_lights sc {ui with lightList := addLoop sc.selection ui.lightList}).1 = _
    rw [e2]
    show ({ui with lightList := addLoop sc.selection (addLoop sc.selection ui.lightList)} :
      UIState) = _
    rw [addLoop_noop sc.selection (addLoop sc.selection ui.lightList)
      (fun x hx => addLoop_mem_sel sc.selection ui.lightList x hx)]

theorem remove_state_idem (ui : UIState) :
    (remove_selected_lights (remove_selected_lights ui).1).1 =
      (remove_selected_lights ui).1 := by
  by_cases h : ui.listSelection.isEmpty = true
  · have e1 : remove_selected_lights ui =
        (ui, ["No lights selected in the list to remove."]) := by
      unfold remove_selected_lights
      rw [if_pos h]
    rw [e1]
    rw [e1]
  · have e1 : remove_selected_lights ui = (removeLoop ui.listSelection ui, []) := by
      unfold remove_selected_lights
      rw [if_neg h]
    rw [e1]
    show (remove_selected_lights (removeLoop ui.listSelection ui)).1 = _
    have hsel : (removeLoop ui.listSelection ui).listSelection = [] :=
      removeLoop_clears_sel ui.listSelection ui (fun x hx => hx)
    have e2 : remove_selected_lights (removeLoop ui.listSelection ui) =
        (removeLoop ui.listSelection ui, ["No lights selected in the list to remove."]) := by
      unfold remove_selected_lights
      rw [if_pos (by rw [hsel]; rfl)]
    rw [e2]

theorem disconnect_scene_idem (sc : Scene) (ui : UIState) :
    (disconnect_blocker (disconnect_blocker sc ui).1 ui).1 = (disconnect_blocker sc ui).1 := by
  by_cases hb : ui.blockerField = "" ∨ ¬ ui.blockerField ∈ sc.objects
  · have e1 : (disconnect_blocker sc ui).1 = sc := by
      unfold disconnect_blocker
      rw [if_pos hb]
    rw [e1]
    exact e1
  · push_neg at hb
    obtain ⟨hb1, hb2⟩ := hb
    by_cases hl : ui.lightList = []
    · have e1 : (disconnect_blocker sc ui).1 = sc := by
        unfold disconnect_blocker
        rw [if_neg (by push_neg; exact ⟨hb1, hb2⟩), if_pos (by rw [hl]; rfl)]
      rw [e1]
      exact e1
    · have e1 : disconnect_blocker sc ui = disconnectLoop ui.blockerField sc ui.lightList :=
        disconnect_blocker_valid sc ui hb1 hb2 hl
      have hfields := disconnectLoop_fields ui.blockerField ui.lightList sc
      have hb2b : ui.blockerField ∈ (disconnectLoop ui.blockerField sc ui.lightList).1.objects := by
        rw [hfields.1]
        exact hb2
      have e2 : disconnect_blocker (disconnectLoop ui.blockerField sc ui.lightList).1 ui =
          disconnectLoop ui.blockerField (disconnectLoop ui.blockerField sc ui.lightList).1
            ui.lightList :=
        disconnect_blocker_valid _ ui hb1 hb2b hl
      rw [e1, e2]
      apply disconnectLoop_scene_id
      intro l hl2 sh rest hsh e he
      have hshs : sc.shapesOf l = sh :: rest := by
        unfold Scene.shapesOf at hsh ⊢
        rw [hfields.2.2.1] at hsh
        exact hsh
      exact disconnectLoop_clears ui.blockerField ui.lightList sc l hl2 sh rest hshs e he

theorem connectAttr_some_fields {sc sc2 : Scene} {src sh : String} {i : Nat}
    (h : connectAttr sc src sh i = some sc2) :
    sc2.objects = sc.objects ∧ sc2.selection = sc.selection ∧
    sc2.shapes = sc.shapes ∧ sc2.locked = sc.locked := by
  unfold connectAttr at h
  by_cases hc : destPlug sh i ∈ sc.locked
  · rw [if_pos hc] at h; cases h
  · rw [if_neg hc] at h
    injection h with h
    rw [← h]
    exact ⟨rfl, rfl, rfl, rfl⟩

theorem connectLight_fields (blocker : String) (sc : Scene) (l : String) :
    (connectLight blocker sc l).1.objects = sc.objects ∧
    (connectLight blocker sc l).1.selection = sc.selection ∧
    (connectLight blocker sc l).1.shapes = sc.shapes ∧
    (connectLight blocker sc l).1.locked = sc.locked := by
  unfold connectLight
  cases hsh : sc.shapesOf l with
  | nil => exact ⟨rfl, rfl, rfl, rfl⟩
  | cons sh rest =>
    simp only []
    cases hca : connectAttr sc (msgPlug blocker) sh
        (nextIndex ((sc.entriesOf sh).map Prod.fst)) with
    | some sc2 =>
      simp only [hca]
      exact connectAttr_some_fields hca
    | none =>
      simp [hca]

theorem connectLoop_fields (blocker : String) :
    ∀ (L : List String) (sc : Scene),
      (connectLoop blocker sc L).1.objects = sc.objects ∧
      (connectLoop blocker sc L).1.selection = sc.selection ∧
      (connectLoop blocker sc L).1.shapes = sc.shapes ∧
      (connectLoop blocker sc L).1.locked = sc.locked
  | [], sc => ⟨rfl, rfl, rfl, rfl⟩
  | l :: ls, sc => by
    obtain ⟨f1, f2, f3, f4⟩ := connectLight_fields blocker sc l
    obtain ⟨g1, g2, g3, g4⟩ := connectLoop_fields blocker ls (connectLight blocker sc l).1
    exact ⟨g1.trans f1, g2.trans f2, g3.trans f3, g4.trans f4⟩

theorem connect_blocker_fields (sc : Scene) (ui : UIState) :
    (connect_blocker sc ui).1.objects = sc.objects ∧
    (connect_blocker sc ui).1.selection = sc.selection ∧
    (connect_blocker sc ui).1.shapes = sc.shapes ∧
    (connect_blocker sc ui).1.locked = sc.locked := by
  unfold connect_blocker
  by_cases hb : ui.blockerField = "" ∨ ¬ ui.blockerField ∈ sc.objects
  · rw [if_pos hb]
    exact ⟨rfl, rfl, rfl, rfl⟩
  · rw [if_neg hb]
    by_cases hl : ui.lightList.isEmpty
    · rw [if_pos hl]
      exact ⟨rfl, rfl, rfl, rfl⟩
    · rw [if_neg hl]
      exact connectLoop_fields ui.blockerField ui.lightList sc

/-! ## Claims -/

/-- Claim C1: for every set of occupied indices that does not cover the whole
range `[0, 1000)`, the next-free-index computation inside `connect_blocker`
returns the minimum excluded non-negative integer of that set; in particular it
returns `0` for the empty set, `3` for `{0,1,2}`, `0` for `{1}` and `1` for the
non-contiguous set `{0,2}`. -/
theorem c1_allocator_mex (s : List Nat) (h : ∃ i, i < 1000 ∧ ¬ i ∈ s) :
    (¬ nextIndex s ∈ s ∧ ∀ m < nextIndex s, m ∈ s) ∧
    nextIndex [] = 0 ∧ nextIndex [0, 1, 2] = 3 ∧ nextIndex [1] = 0 ∧
    nextIndex [0, 2] = 1 := by
  refine ⟨nextIndex_mex s h, rfl, ?_, ?_, ?_⟩
  · obtain ⟨hn, hlt⟩ := nextIndex_mex [0, 1, 2] ⟨3, by decide, by decide⟩
    rcases Nat.lt_trichotomy (nextIndex [0, 1, 2]) 3 with hc | hc | hc
    · interval_cases h4 : nextIndex [0, 1, 2] <;> simp_all
    · exact hc
    · exact absurd (hlt 3 hc) (by decide)
  · obtain ⟨hn, hlt⟩ := nextIndex_mex [1] ⟨0, by decide, by decide⟩
    rcases Nat.eq_zero_or_pos (nextIndex [1]) with hc | hc
    · exact hc
    · exact absurd (hlt 0 hc) (by decide)
  · obtain ⟨hn, hlt⟩ := nextIndex_mex [0, 2] ⟨1, by decide, by decide⟩
    rcases Nat.lt_trichotomy (nextIndex [0, 2]) 1 with hc | hc | hc
    · interval_cases h4 : nextIndex [0, 2] <;> simp_all
    · exact hc
    · exact absurd (hlt 1 hc) (by simp_all)

/-- Witness for C1 at the concrete occupied set `{0, 2}`. -/
theorem c1_allocator_mex_witness :
    (¬ nextIndex [0, 2] ∈ ([0, 2] : List Nat) ∧
      ∀ m < nextIndex [0, 2], m ∈ ([0, 2] : List Nat)) ∧
    nextIndex [] = 0 ∧ nextIndex [0, 1, 2] = 3 ∧ nextIndex [1] = 0 ∧
    nextIndex [0, 2] = 1 :=
  c1_allocator_mex [0, 2] ⟨1, by decide, by decide⟩

/-- Claim C10: when the occupied-index set is non-empty and covers every index
in `[0, 1000)`, the index search in `connect_blocker` does not fail:
`next_index` keeps its initial value `0` and the connection is attempted at
array element `0`, an already-occupied index. -/
theorem c10_full_range_attempts_zero (blocker light sh : String) (rest : List String)
    (sc : Scene) (h1 : sc.shapesOf light = sh :: rest)
    (h2 : (sc.entriesOf sh).map Prod.fst ≠ [])
    (h3 : ∀ i < 1000, i ∈ (sc.entriesOf sh).map Prod.fst)
    (h4 : ¬ destPlug sh 0 ∈ sc.locked) :
    nextIndex ((sc.entriesOf sh).map Prod.fst) = 0 ∧
    (connectLight blocker sc light).1.entriesOf sh =
      (sc.entriesOf sh).filter (fun e => !(e.1 == 0)) ++ [(0, msgPlug blocker)] ∧
    (connectLight blocker sc light).2 = [] := by
  have hz : nextIndex ((sc.entriesOf sh).map Prod.fst) = 0 := nextIndex_full _ h2 h3
  have hca : connectAttr sc (msgPlug blocker) sh 0 =
      some { sc with
        filters := setEntries sc.filters sh
          ((sc.entriesOf sh).filter (fun e => !(e.1 == 0)) ++ [(0, msgPlug blocker)]) } := by
    unfold connectAttr
    rw [if_neg h4]
  have hcl : connectLight blocker sc light =
      ({ sc with
        filters := setEntries sc.filters sh
          ((sc.entriesOf sh).filter (fun e => !(e.1 == 0)) ++ [(0, msgPlug blocker)]) }, []) := by
    unfold connectLight
    rw [h1]
    simp only [hz, hca]
  refine ⟨hz, ?_, ?_⟩
  · rw [hcl]
    simp [Scene.entriesOf, lookup_setEntries]
  · rw [hcl]

set_option maxRecDepth 10000 in
/-- Witness for C10 on a concrete scene with all 1000 indices occupied. -/
theorem c10_full_range_attempts_zero_witness :
    nextIndex ((scFull.entriesOf "LShape").map Prod.fst) = 0 ∧
    (connectLight "b" scFull "L").1.entriesOf "LShape" =
      (scFull.entriesOf "LShape").filter (fun e => !(e.1 == 0)) ++ [(0, msgPlug "b")] ∧
    (connectLight "b" scFull "L").2 = [] := by
  have he : scFull.entriesOf "LShape" = fullEntries := rfl
  refine c10_full_range_attempts_zero "b" "L" "LShape" [] scFull rfl ?_ ?_ ?_
  · rw [he]
    simp [fullEntries]
  · intro i hi
    rw [he]
    simpa [fullEntries, List.map_map] using hi
  · simp [scFull]

/-- Claim C9: with a non-empty selection, `pick_light_blocker` stores exactly
the first selected object in the blocker field, ignoring the rest of the
selection; with an empty selection it warns and leaves the field unchanged. -/
theorem c9_pick_first_selected (sc : Scene) (ui : UIState) :
    (sc.selection = [] →
      pick_light_blocker sc ui =
        (ui, ["No objects selected to set as Light Blocker."])) ∧
    (∀ b rest, sc.selection = b :: rest →
      pick_light_blocker sc ui = ({ ui with blockerField := b }, [])) := by
  constructor
  · intro h
    unfold pick_light_blocker
    rw [h]
  · intro b rest h
    unfold pick_light_blocker
    rw [h]

/-- Witness for C9: picking with selection `["a", "c"]` stores `a`. -/
theorem c9_pick_first_selected_witness :
    pick_light_blocker scPick uiEmpty = ({ uiEmpty with blockerField := "a" }, []) :=
  (c9_pick_first_selected scPick uiEmpty).2 "a" ["c"] rfl

/-- Claim C7: with an empty or non-existing blocker, or an empty light list,
`connect_blocker` and `disconnect_blocker` each issue one warning and return
without mutating the scene. -/
theorem c7_input_checks_abort (sc : Scene) (ui : UIState)
    (h : (ui.blockerField = "" ∨ ¬ ui.blockerField ∈ sc.objects) ∨ ui.lightList = []) :
    (connect_blocker sc ui).1 = sc ∧ (connect_blocker sc ui).2.length = 1 ∧
    (disconnect_blocker sc ui).1 = sc ∧ (disconnect_blocker sc ui).2.length = 1 := by
  unfold connect_blocker disconnect_blocker
  by_cases hb : ui.blockerField = "" ∨ ¬ ui.blockerField ∈ sc.objects
  · rw [if_pos hb, if_pos hb]
    exact ⟨rfl, rfl, rfl, rfl⟩
  · have hl : ui.lightList = [] := by tauto
    rw [if_neg hb, if_neg hb]
    have he : ui.lightList.isEmpty = true := by rw [hl]; rfl
    rw [if_pos he, if_pos he]
    exact ⟨rfl, rfl, rfl, rfl⟩

/-- Witness for C7 with an empty blocker field. -/
theorem c7_input_checks_abort_witness :
    (connect_blocker scPick uiEmpty).1 = scPick ∧
    (connect_blocker scPick uiEmpty).2.length = 1 ∧
    (disconnect_blocker scPick uiEmpty).1 = scPick ∧
    (disconnect_blocker scPick uiEmpty).2.length = 1 :=
  c7_input_checks_abort scPick uiEmpty (Or.inl (Or.inl rfl))

/-- Claim C5: starting from a duplicate-free light list, `add_selected_lights`
leaves the list duplicate-free, every selected name ends up in the list exactly
once, and adding names that are all already present leaves the widget state
unchanged. -/
theorem c5_add_no_duplicates (sc : Scene) (ui : UIState) (h : ui.lightList.Nodup) :
    (add_selected_lights sc ui).1.lightList.Nodup ∧
    (∀ x ∈ sc.selection, (add_selected_lights sc ui).1.lightList.count x = 1) ∧
    ((∀ x ∈ sc.selection, x ∈ ui.lightList) → (add_selected_lights sc ui).1 = ui) := by
  unfold add_selected_lights
  by_cases hs : sc.selection.isEmpty
  · rw [if_pos hs]
    have hnil : sc.selection = [] := by
      cases hsel : sc.selection
      · rfl
      · rw [hsel] at hs; cases hs
    refine ⟨h, ?_, fun _ => rfl⟩
    intro x hx
    rw [hnil] at hx
    cases hx
  · rw [if_neg hs]
    refine ⟨addLoop_nodup _ _ h, ?_, ?_⟩
    · intro x hx
      exact List.count_eq_one_of_mem (addLoop_nodup _ _ h) (addLoop_mem_sel _ _ x hx)
    · intro hall
      rw [addLoop_noop _ _ hall]

/-- Witness for C5: adding selection `["a", "b", "a"]` to the list `["b", "c"]`. -/
theorem c5_add_no_duplicates_witness :
    (add_selected_lights scAddSel uiAdd).1.lightList.Nodup ∧
    (∀ x ∈ scAddSel.selection, (add_selected_lights scAddSel uiAdd).1.lightList.count x = 1) ∧
    ((∀ x ∈ scAddSel.selection, x ∈ uiAdd.lightList) →
      (add_selected_lights scAddSel uiAdd).1 = uiAdd) :=
  c5_add_no_duplicates scAddSel uiAdd (by decide)

/-- Claim C8: inside the per-light loop of `connect_blocker`, a light with no
child shape is skipped with a warning, and a host-level connection failure on
one light is caught and reported as a warning; in both cases the remaining
lights are processed exactly as they would have been, on an unchanged scene. -/
theorem c8_per_light_isolation (blocker : String) (sc : Scene) (l : String)
    (ls : List String) :
    (sc.shapesOf l = [] →
      connectLoop blocker sc (l :: ls) =
        ((connectLoop blocker sc ls).1,
         ("No shape found under " ++ l ++ ". Skipping...") ::
           (connectLoop blocker sc ls).2)) ∧
    (∀ sh rest, sc.shapesOf l = sh :: rest →
      destPlug sh (nextIndex ((sc.entriesOf sh).map Prod.fst)) ∈ sc.locked →
      connectLoop blocker sc (l :: ls) =
        ((connectLoop blocker sc ls).1,
         ("Could not connect " ++ msgPlug blocker ++ " -> " ++
          destPlug sh (nextIndex ((sc.entriesOf sh).map Prod.fst)) ++
          ": locked attribute") :: (connectLoop blocker sc ls).2)) := by
  constructor
  · intro h
    rw [connectLoop_cons, connectLight_noShape blocker sc l h]
    simp
  · intro sh rest h hlock
    rw [connectLoop_cons, connectLight_locked blocker sc l sh rest h hlock]
    simp

/-- Witness for C8: a locked destination plug yields a warning and an unchanged
scene. -/
theorem c8_per_light_isolation_witness :
    connectLoop "b" scLockedZero ["L"] =
      ((connectLoop "b" scLockedZero []).1,
       ("Could not connect " ++ msgPlug "b" ++ " -> " ++
        destPlug "LShape" (nextIndex ((scLockedZero.entriesOf "LShape").map Prod.fst)) ++
        ": locked attribute") :: (connectLoop "b" scLockedZero []).2) :=
  (c8_per_light_isolation "b" scLockedZero "L" []).2 "LShape" [] rfl
    (List.mem_singleton.mpr rfl)

/-- Claim C2: for a light whose shape exists, `disconnect_blocker` removes from
the shape's connection-pair list exactly the pairs whose source equals the
blocker's message attribute (the destination of every listed pair being an
element of that shape's array attribute); several matching pairs are all
removed. -/
theorem c2_disconnect_removes_matching (sc : Scene) (ui : UIState) (light sh : String)
    (rest : List String) (hb1 : ui.blockerField ≠ "") (hb2 : ui.blockerField ∈ sc.objects)
    (hl : ui.lightList = [light]) (hsh : sc.shapesOf light = sh :: rest) :
    (disconnect_blocker sc ui).1.entriesOf sh =
      (sc.entriesOf sh).filter (fun e => !(e.2 == msgPlug ui.blockerField)) :=
  disconnect_single_entries sc ui light sh rest hb1 hb2 hl hsh

/-- Witness for C2 on a shape carrying the blocker at indices 0 and 2 and a
foreign source at index 1. -/
theorem c2_disconnect_removes_matching_witness :
    (disconnect_blocker scDisc uiConn).1.entriesOf "LShape" =
      (scDisc.entriesOf "LShape").filter (fun e => !(e.2 == msgPlug uiConn.blockerField)) :=
  c2_disconnect_removes_matching scDisc uiConn "L" "LShape" [] (by decide)
    (by decide) rfl rfl

/-- Claim C6: with a valid blocker, a non-empty light list whose lights all
have shapes, and no connection pair matching the blocker's message source,
`disconnect_blocker` performs no mutation and emits no warning. -/
theorem c6_disconnect_no_match_no_mutation (sc : Scene) (ui : UIState)
    (hb1 : ui.blockerField ≠ "") (hb2 : ui.blockerField ∈ sc.objects)
    (hne : ui.lightList ≠ [])
    (hshapes : ∀ l ∈ ui.lightList, sc.shapesOf l ≠ [])
    (hnm : ∀ l ∈ ui.lightList, ∀ e ∈ sc.entriesOf ((sc.shapesOf l).headD ""),
      e.2 ≠ msgPlug ui.blockerField) :
    disconnect_blocker sc ui = (sc, []) := by
  rw [disconnect_blocker_valid sc ui hb1 hb2 hne]
  exact disconnectLoop_noMut ui.blockerField ui.lightList sc hshapes hnm

/-- Witness for C6 on a shape whose only connection has a foreign source. -/
theorem c6_disconnect_no_match_no_mutation_witness :
    disconnect_blocker scNoMatch uiConn = (scNoMatch, []) :=
  c6_disconnect_no_match_no_mutation scNoMatch uiConn (by decide) (by decide)
    (by decide) (by decide) (by decide)

/-- Claim C4: for a valid blocker and a light whose shape exists, running
`connect_blocker` and then `disconnect_blocker` for the same pair leaves zero
connections on that light's array attribute whose source is the blocker's
message attribute. -/
theorem c4_connect_then_disconnect_clears (sc : Scene) (ui : UIState) (light sh : String)
    (rest : List String) (hb1 : ui.blockerField ≠ "") (hb2 : ui.blockerField ∈ sc.objects)
    (hl : ui.lightList = [light]) (hsh : sc.shapesOf light = sh :: rest) :
    ∀ e ∈ (disconnect_blocker (connect_blocker sc ui).1 ui).1.entriesOf sh,
      e.2 ≠ msgPlug ui.blockerField := by
  intro e he
  have hf := connect_blocker_fields sc ui
  have hb2c : ui.blockerField ∈ (connect_blocker sc ui).1.objects := by
    rw [hf.1]
    exact hb2
  have hshc : (connect_blocker sc ui).1.shapesOf light = sh :: rest := by
    unfold Scene.shapesOf
    rw [hf.2.2.1]
    exact hsh
  rw [disconnect_single_entries (connect_blocker sc ui).1 ui light sh rest hb1 hb2c hl hshc]
    at he
  have := (List.mem_filter.mp he).2
  simpa using this

/-- Witness for C4 on the concrete blocker-and-light scene. -/
theorem c4_connect_then_disconnect_clears_witness :
    ((disconnect_blocker (connect_blocker scDisc uiConn).1 uiConn).1.entriesOf "LShape").all
      (fun e => !(e.2 == msgPlug uiConn.blockerField)) = true := by
  rw [List.all_eq_true]
  intro e he
  have h := c4_connect_then_disconnect_clears scDisc uiConn "L" "LShape" [] (by decide)
    (by decide) rfl rfl e he
  simpa using h

set_option maxRecDepth 10000 in
/-- Counterexample to C3 as stated: rerunning `connect_blocker` against the
state produced by its first run changes that state again, because the second
run allocates the next free index and adds a second connection there. -/
theorem c3_connect_not_idempotent :
    connectStep (connectStep (scConn, uiConn)) ≠ connectStep (scConn, uiConn) := by
  decide

/-- Claim C3 (amended): pick, add, remove and disconnect are idempotent on
retry against the host state produced by their first run; connect is excluded,
since rerunning it allocates the next free index and adds a further
connection. -/
theorem c3_retry_idempotent_except_connect (w : Scene × UIState) :
    pickStep (pickStep w) = pickStep w ∧
    addStep (addStep w) = addStep w ∧
    removeStep (removeStep w) = removeStep w ∧
    disconnectStep (disconnectStep w) = disconnectStep w := by
  rcases w with ⟨sc, ui⟩
  refine ⟨?_, ?_, ?_, ?_⟩
  · unfold pickStep
    simp only []
    rw [pick_state_idem]
  · unfold addStep
    simp only []
    rw [add_state_idem]
  · unfold removeStep
    simp only []
    rw [remove_state_idem]
  · unfold disconnectStep
    simp only []
    rw [disconnect_scene_idem]

end LightBlocker
